import Mathlib

/-!
Shallow embedding of the ai-chat web application's request handlers:
the `/api/chat-messages` sync proxy (`serve` in
packages/web/src/lib/collections.ts), the `POST /api/chat/ai` handler,
the `POST /api/chat/guest` handler, the environment/configuration
resolution (`getEnv`), and the guest-side client submit state machine
(`handleSend` in ChatPage.tsx).  Server handlers are modelled as pure
functions from the request's inputs (session, parsed body, database
contents, provider configuration, upstream stream outcome) to an
`Outcome`: the HTTP status produced (or none when an exception is
thrown before a response) together with an ordered trace of the
observable effects the handler performs (session check, database
reads/writes, LLM call, chunks emitted to the client, forwarding to
the replication endpoint).
-/

/-- A chat message as carried in request bodies: `{role, content}`. -/
structure Msg where
  role : String
  content : String
deriving Repr, DecidableEq

/-- A row of the `chat_messages` table as written by the handlers
(`thread_id`, `role`, `content`; ids and timestamps are generated by the
database and not modelled). -/
structure MsgRow where
  thread_id : Int
  role : String
  content : String
deriving Repr, DecidableEq

/-- A row of the `chat_threads` table: `{id, title, user_id}`. -/
structure Thread where
  id : Int
  title : String
  user_id : String
deriving Repr, DecidableEq

/-- Database contents visible to the handlers. -/
structure Db where
  threads : List Thread
  messages : List MsgRow
deriving Repr, DecidableEq

/-- A JSON value that the `threadId` body field may hold (the handler
only type-asserts `number | string`). -/
inductive JVal where
  | num (n : Int)
  | str (s : String)
deriving Repr, DecidableEq

/-- The result of JavaScript `Number(x)` coercion, as far as the handler
can observe it: `NaN`, an integral number, or a finite non-integral
number (which is never `0`, hence always truthy, and never equal to an
integer thread id). -/
inductive NumVal where
  | nan
  | int (n : Int)
  | nonIntegral
deriving Repr, DecidableEq

/-- Fold a list of decimal digit characters into a natural number. -/
def digitsToNat (cs : List Char) : Nat :=
  cs.foldl (fun a c => a * 10 + (c.toNat - 48)) 0

/-- Parse a trimmed, nonempty string as a JavaScript decimal number
literal `[sign] digits [. digits]`.  Exponent, hex and infinity forms
are not modelled (no claim depends on them); anything else coerces to
`NaN`, matching `Number(s)`. -/
def parseDec (t : String) : NumVal :=
  let cs := t.toList
  let signNeg := cs.headD ' ' = '-'
  let cs := if cs.headD ' ' = '-' ∨ cs.headD ' ' = '+' then cs.tail else cs
  match cs.splitOn '.' with
  | [intPart] =>
    if intPart ≠ [] ∧ intPart.all Char.isDigit then
      NumVal.int (if signNeg then -(digitsToNat intPart : Int) else (digitsToNat intPart : Int))
    else NumVal.nan
  | [intPart, fracPart] =>
    if (intPart ≠ [] ∨ fracPart ≠ []) ∧ intPart.all Char.isDigit ∧ fracPart.all Char.isDigit then
      if fracPart.all (· = '0') then
        NumVal.int (if signNeg then -(digitsToNat intPart : Int) else (digitsToNat intPart : Int))
      else NumVal.nonIntegral
    else NumVal.nan
  | _ => NumVal.nan

/-- ASCII whitespace as JavaScript trimming sees it (exotic Unicode
space classes are not modelled). -/
def isJsSpace (c : Char) : Bool :=
  c = ' ' ∨ c = '\t' ∨ c = '\n' ∨ c = '\r'

/-- JavaScript `String.prototype.trim`: strip leading and trailing
whitespace. -/
def jsTrim (s : String) : String :=
  String.mk (((s.toList.dropWhile isJsSpace).reverse.dropWhile isJsSpace).reverse)

/-- JavaScript `Number(body.threadId)`: `Number(undefined) = NaN`,
numbers pass through, strings are trimmed and parsed (`Number("") = 0`).
-/
def jsToNumber : Option JVal → NumVal
  | none => NumVal.nan
  | some (JVal.num n) => NumVal.int n
  | some (JVal.str s) =>
    let t := jsTrim s
    if t = "" then NumVal.int 0 else parseDec t

/-- JavaScript falsiness of a number: `NaN` and `0` are falsy. -/
def NumVal.falsy : NumVal → Bool
  | NumVal.nan => true
  | NumVal.int n => n == 0
  | NumVal.nonIntegral => false

/-- One source of environment variables (the Cloudflare worker context
or `process.env`); every field may be absent. -/
structure EnvVars where
  DATABASE_URL : Option String
  BETTER_AUTH_SECRET : Option String
  APP_BASE_URL : Option String
  RESEND_API_KEY : Option String
  RESEND_FROM_EMAIL : Option String
deriving Repr, DecidableEq

/-- The resolved configuration returned by `getEnv` (type `AuthEnv` in
lib/auth.ts): the two required secrets are present, the rest optional. -/
structure AuthEnv where
  DATABASE_URL : String
  BETTER_AUTH_SECRET : String
  APP_BASE_URL : Option String
  RESEND_API_KEY : Option String
  RESEND_FROM_EMAIL : Option String
deriving Repr, DecidableEq

/-- Field resolution in `getEnv`: the Cloudflare context value (when the
context exists and carries the field) takes precedence, falling back to
`process.env` via `??`. -/
def pickEnv (cf : Option EnvVars) (proc : EnvVars) (f : EnvVars → Option String) : Option String :=
  match cf.bind f with
  | some v => some v
  | none => f proc

/-- The `getEnv` function of lib/auth.ts: resolves each variable from
the Cloudflare context first, then `process.env`, and throws a
configuration error when `DATABASE_URL` or `BETTER_AUTH_SECRET` is
absent from both. -/
def getEnv (cf : Option EnvVars) (proc : EnvVars) : Except String AuthEnv :=
  match pickEnv cf proc (fun e => e.DATABASE_URL) with
  | none => Except.error "DATABASE_URL is not configured"
  | some dbUrl =>
    match pickEnv cf proc (fun e => e.BETTER_AUTH_SECRET) with
    | none => Except.error "BETTER_AUTH_SECRET is not configured"
    | some secret =>
      Except.ok ⟨dbUrl, secret, pickEnv cf proc (fun e => e.APP_BASE_URL),
        pickEnv cf proc (fun e => e.RESEND_API_KEY),
        pickEnv cf proc (fun e => e.RESEND_FROM_EMAIL)⟩

/-- Observable effects a handler performs, in order. -/
inductive Ev where
  | sessionCheck
  | dbQuery
  | dbExec
  | dbInsert (r : MsgRow)
  | llmCall (model : String)
  | emit (chunk : String)
  | streamError
  | syncForward (params : List (String × String))
deriving Repr, DecidableEq

/-- Result of running a handler: the HTTP status of the response it
returned (`none` when an exception escaped before a response was
produced) and the ordered trace of its effects. -/
structure Outcome where
  status : Option Nat
  trace : List Ev
deriving Repr, DecidableEq

/-- Rows inserted into `chat_messages` during the handling. -/
def Outcome.inserts (o : Outcome) : List MsgRow :=
  o.trace.filterMap fun e =>
    match e with
    | Ev.dbInsert r => some r
    | _ => none

/-- Whether the handler wrote to the database (an insert or a DDL
statement; plain selects are not writes). -/
def Outcome.wroteDb (o : Outcome) : Bool :=
  o.trace.any fun e =>
    match e with
    | Ev.dbInsert _ => true
    | Ev.dbExec => true
    | _ => false

/-- Whether the handler invoked the external LLM collaborator. -/
def Outcome.calledLLM (o : Outcome) : Bool :=
  o.trace.any fun e =>
    match e with
    | Ev.llmCall _ => true
    | _ => false

/-- Whether the handler consulted the session validator. -/
def Outcome.checkedSession (o : Outcome) : Bool :=
  o.trace.any fun e =>
    match e with
    | Ev.sessionCheck => true
    | _ => false

/-- The query parameters of the request forwarded to the external
replication endpoint, when the handler forwarded one. -/
def Outcome.forwarded (o : Outcome) : Option (List (String × String)) :=
  o.trace.findSome? fun e =>
    match e with
    | Ev.syncForward ps => some ps
    | _ => none

/-- Chunks emitted to the client over the streamed response body. -/
def Outcome.emitted (o : Outcome) : List String :=
  o.trace.filterMap fun e =>
    match e with
    | Ev.emit c => some c
    | _ => none

/-- The row filter the sync proxy builds, as an abstract predicate over
the filtered column before rendering to the `where` query parameter. -/
inductive WhereClause where
  | eqVal (col : String) (v : Int)
  | inList (col : String) (vals : List Int)
deriving Repr, DecidableEq

/-- Render a filter to the SQL text placed in the `where` parameter,
exactly as collections.ts builds it: `"col" IN (1,2,3)` via
`threadIds.join(",")`, or `"col" = -1`. -/
def renderWhere : WhereClause → String
  | WhereClause.eqVal col v => "\"" ++ col ++ "\" = " ++ toString v
  | WhereClause.inList col vals =>
    "\"" ++ col ++ "\" IN (" ++ String.intercalate "," (vals.map toString) ++ ")"

/-- SQL semantics of the rendered filter, as the replication service
evaluates it on a row's value of the filtered column. -/
def evalWhere : WhereClause → Int → Bool
  | WhereClause.eqVal _ v, x => x == v
  | WhereClause.inList _ vals, x => vals.contains x

/-- `URLSearchParams.set(k, v)`: every existing entry under `k` is
removed and the single pair `(k, v)` is kept (entry order beyond this is
not relied on by any claim). -/
def spSet (l : List (String × String)) (k v : String) : List (String × String) :=
  l.filter (fun p => p.1 ≠ k) ++ [(k, v)]

/-- Modelled from the spec: `prepareElectricUrl` lives in
src/lib/electric-proxy.ts, which is not included under src/.  Per §4.3
the proxy forwards the inbound subscription request (continuation
cursor/params supplied by the client) to the external replication
endpoint "unmodified otherwise", so the origin URL starts from the
client-supplied query parameters unchanged. -/
def prepareElectricUrl (clientParams : List (String × String)) : List (String × String) :=
  clientParams

/-- The owned-thread query of collections.ts (`§4.2
listOwnedThreadIds`): ids of the threads whose `user_id` is the
caller's. -/
def listOwnedThreadIds (db : Db) (uid : String) : List Int :=
  (db.threads.filter (fun t => t.user_id == uid)).map (fun t => t.id)

/-- The ownership filter collections.ts builds over `thread_id`:
`"thread_id" IN (...)` when the caller owns threads, otherwise the
impossible condition `"thread_id" = -1`. -/
def ownershipClause (threadIds : List Int) : WhereClause :=
  if threadIds.isEmpty then WhereClause.eqVal "thread_id" (-1)
  else WhereClause.inList "thread_id" threadIds

/-- The `/api/chat-messages` sync-proxy handler (`serve` in
collections.ts): resolve configuration and the session; 401 without a
session; otherwise ensure tables exist (two DDL statements), query the
caller's thread ids, build the origin URL from the client parameters,
force `table=chat_messages`, set the ownership `where` filter, and
forward to the replication endpoint. -/
def serve (cf : Option EnvVars) (proc : EnvVars) (session : Option String)
    (db : Db) (clientParams : List (String × String)) : Outcome :=
  match getEnv cf proc with
  | Except.error _ => ⟨none, []⟩
  | Except.ok _ =>
    match session with
    | none => ⟨some 401, [Ev.sessionCheck]⟩
    | some uid =>
      let threadIds := listOwnedThreadIds db uid
      let originParams := prepareElectricUrl clientParams
      let withTable := spSet originParams "table" "chat_messages"
      let withWhere := spSet withTable "where" (renderWhere (ownershipClause threadIds))
      ⟨some 200, [Ev.sessionCheck, Ev.dbExec, Ev.dbExec, Ev.dbQuery, Ev.syncForward withWhere]⟩

/-- Modelled from the spec: the `/api/chat-threads` sync-proxy route
file is not included under src/.  Per §4.3 and §6 it validates the
session exactly like `/api/chat-messages` (401 without a session,
before any database write or upstream contact) and forwards with a row
filter restricting the `chat_threads` table to the caller's own
threads. -/
def serveChatThreads (cf : Option EnvVars) (proc : EnvVars) (session : Option String)
    (db : Db) (clientParams : List (String × String)) : Outcome :=
  match getEnv cf proc with
  | Except.error _ => ⟨none, []⟩
  | Except.ok _ =>
    match session with
    | none => ⟨some 401, [Ev.sessionCheck]⟩
    | some uid =>
      let ids := listOwnedThreadIds db uid
      let clause := if ids.isEmpty then WhereClause.eqVal "id" (-1)
        else WhereClause.inList "id" ids
      let ps := spSet (spSet (prepareElectricUrl clientParams) "table" "chat_threads")
        "where" (renderWhere clause)
      ⟨some 200, [Ev.sessionCheck, Ev.dbQuery, Ev.syncForward ps]⟩

/-- The parsed body of `POST /api/chat/ai`; a body that fails JSON
parsing becomes `{}`, i.e. every field absent. -/
structure AiBody where
  threadId : Option JVal
  messages : Option (List Msg)
  model : Option String
deriving Repr, DecidableEq

/-- The parsed body of `POST /api/chat/guest`. -/
structure GuestBody where
  messages : Option (List Msg)
  model : Option String
deriving Repr, DecidableEq

/-- Outcome of the external completion collaborator's stream, an input
to the handler model: the stream either completes naturally after
yielding `chunks`, or throws after delivering `sent`. -/
inductive StreamOutcome where
  | completed (chunks : List String)
  | failed (sent : List String)
deriving Repr, DecidableEq

/-- JavaScript `body.model || getDefaultModel()`: an absent or empty
model string falls back to the configured default. -/
def jsOr (o : Option String) (d : String) : String :=
  match o with
  | some s => if s = "" then d else s
  | none => d

/-- The demo reply template of the /api/chat/ai and /api/chat/guest
handlers; with no user-role message the template interpolates
JavaScript `undefined` as the string "undefined". -/
def demoReply (lastUserMessage : Option Msg) : String :=
  "Demo reply: I received \"" ++
    (match lastUserMessage with
     | some m => m.content
     | none => "undefined") ++
    "\". Configure OPENROUTER_API_KEY for real responses."

/-- String escaping of `JSON.stringify` on a string value (quote,
backslash and newline escapes; other control characters do not occur in
the strings the handlers build). -/
def jsonStringifyString (s : String) : String :=
  "\"" ++ String.join (s.toList.map fun c =>
    if c = '\\' then "\\\\"
    else if c = '"' then "\\\""
    else if c = '\n' then "\\n"
    else String.singleton c) ++ "\""

/-- The single chunk the demo branch of /api/chat/ai enqueues, in the AI
SDK data stream framing: `0:<json string>\n`. -/
def demoChunk (reply : String) : String :=
  "0:" ++ jsonStringifyString reply ++ "\n"

/-- The `findFirst` thread lookup of the /api/chat/ai handler:
`eq(fields.id, threadId)` over the coerced number; a non-integral or NaN
number matches no integer id. -/
def lookupThread (db : Db) : NumVal → Option Thread
  | NumVal.int n => db.threads.find? (fun t => t.id == n)
  | _ => none

/-- The `POST /api/chat/ai` handler (routes/api/chat/ai.ts): resolve
configuration via `getAuth`, check the session (401), coerce and
validate the body (400), verify thread ownership (403), then either the
demo branch (no credential: insert the canned reply, stream it as one
framed chunk) or the real branch (call the LLM streaming; `onFinish`
inserts the accumulated text exactly once after the stream's natural
end; a stream failure propagates with nothing inserted). -/
def chatAi (cf : Option EnvVars) (proc : EnvVars) (session : Option String)
    (body : AiBody) (db : Db) (apiKeyConfigured : Bool) (defaultModel : String)
    (st : StreamOutcome) : Outcome :=
  match getEnv cf proc with
  | Except.error _ => ⟨none, []⟩
  | Except.ok _ =>
    match session with
    | none => ⟨some 401, [Ev.sessionCheck]⟩
    | some uid =>
      let tidNum := jsToNumber body.threadId
      let messages := body.messages.getD []
      let model := jsOr body.model defaultModel
      if tidNum.falsy ∨ messages.isEmpty then ⟨some 400, [Ev.sessionCheck]⟩
      else
        match lookupThread db tidNum with
        | none => ⟨some 403, [Ev.sessionCheck, Ev.dbQuery]⟩
        | some thread =>
          if thread.user_id ≠ uid then ⟨some 403, [Ev.sessionCheck, Ev.dbQuery]⟩
          else
            let tid := match tidNum with
              | NumVal.int n => n
              | _ => 0
            if ¬ apiKeyConfigured then
              let lastUserMessage := (messages.filter (fun m => m.role == "user")).getLast?
              let reply := demoReply lastUserMessage
              ⟨some 200, [Ev.sessionCheck, Ev.dbQuery,
                Ev.dbInsert ⟨tid, "assistant", reply⟩, Ev.emit (demoChunk reply)]⟩
            else
              match st with
              | StreamOutcome.completed chunks =>
                ⟨some 200, [Ev.sessionCheck, Ev.dbQuery, Ev.llmCall model] ++
                  chunks.map Ev.emit ++
                  [Ev.dbInsert ⟨tid, "assistant", String.join chunks⟩]⟩
              | StreamOutcome.failed sent =>
                ⟨some 200, [Ev.sessionCheck, Ev.dbQuery, Ev.llmCall model] ++
                  sent.map Ev.emit ++ [Ev.streamError]⟩

/-- The `POST /api/chat/guest` handler (routes/api/chat/guest.ts): no
configuration lookup, no session check, no persistence; 400 when the
messages list is empty or absent (including unparseable JSON bodies),
otherwise the demo echo (one raw chunk) or the relayed LLM stream. -/
def guest (body : GuestBody) (apiKeyConfigured : Bool) (defaultModel : String)
    (st : StreamOutcome) : Outcome :=
  let messages := body.messages.getD []
  let model := jsOr body.model defaultModel
  if messages.isEmpty then ⟨some 400, []⟩
  else if ¬ apiKeyConfigured then
    let lastUserMessage := (messages.filter (fun m => m.role == "user")).getLast?
    let reply := demoReply lastUserMessage
    ⟨some 200, [Ev.emit reply]⟩
  else
    match st with
    | StreamOutcome.completed chunks => ⟨some 200, Ev.llmCall model :: chunks.map Ev.emit⟩
    | StreamOutcome.failed sent =>
      ⟨some 200, Ev.llmCall model :: (sent.map Ev.emit ++ [Ev.streamError])⟩

/-- A client-side guest message (ChatPage.tsx `GuestMessage`): held only
in browser memory. -/
structure GuestMessageC where
  id : Int
  role : String
  content : String
deriving Repr, DecidableEq

/-- The React state of the `GuestChat` component that `handleSend`
reads and writes; `freeRequestsUsed` mirrors the local-storage counter,
which the code keeps in lockstep via `incrementFreeRequestCount` and
`setFreeRequestsUsed`. -/
structure GuestState where
  input : String
  isLoading : Bool
  streamingContent : String
  guestMessages : List GuestMessageC
  freeRequestsUsed : Nat
  showAuthPrompt : Bool
deriving Repr, DecidableEq

/-- Result of the `fetch` to `/api/chat/guest`, as observed by
`handleSend`: a readable stream of chunks, or a thrown error (non-ok
status, missing body, or a network/stream failure). -/
inductive FetchRes where
  | ok (chunks : List String)
  | err
deriving Repr, DecidableEq

/-- The client-side free completion cap (`FREE_REQUEST_LIMIT` in
ChatPage.tsx). -/
def FREE_REQUEST_LIMIT : Nat := 1

/-- One submit of the guest chat form (`handleSend` in ChatPage.tsx),
returning the next state and whether a completion call to
`/api/chat/guest` was issued.  `now` stands for `Date.now()`. -/
def handleSend (s : GuestState) (now : Int) (res : FetchRes) : GuestState × Bool :=
  if jsTrim s.input = "" ∨ s.isLoading then (s, false)
  else
    let userMessage := jsTrim s.input
    let s1 : GuestState := { s with input := "", isLoading := true, streamingContent := "" }
    if FREE_REQUEST_LIMIT ≤ s1.freeRequestsUsed then
      ({ s1 with showAuthPrompt := true, isLoading := false }, false)
    else
      let s2 : GuestState :=
        { s1 with guestMessages := s1.guestMessages ++ [⟨now, "user", userMessage⟩] }
      match res with
      | FetchRes.ok chunks =>
        let accumulated := String.join chunks
        let s3 : GuestState :=
          { s2 with
            guestMessages := s2.guestMessages ++ [⟨now + 1, "assistant", accumulated⟩],
            streamingContent := "" }
        let newCount := s3.freeRequestsUsed + 1
        let s4 : GuestState :=
          { s3 with
            freeRequestsUsed := newCount,
            showAuthPrompt := if FREE_REQUEST_LIMIT ≤ newCount then true else s3.showAuthPrompt }
        ({ s4 with isLoading := false }, true)
      | FetchRes.err =>
        ({ s2 with streamingContent := "", isLoading := false }, true)

/-- Shared test fixture: a process environment carrying both required
secrets. -/
def procEnvW : EnvVars := ⟨some "postgres://db", some "secret", none, none, none⟩

/-- Shared test fixture: the configuration `getEnv` resolves from
`procEnvW`. -/
def authEnvW : AuthEnv := ⟨"postgres://db", "secret", none, none, none⟩

/-- Shared test fixture: a database with one thread owned by "alice". -/
def dbW : Db := ⟨[⟨5, "general", "alice"⟩], []⟩

/-- Shared test fixture: a single-element user message list. -/
def msgsW : List Msg := [⟨"user", "hello"⟩]

theorem lookup_append_singleton (l : List (String × String)) (k v : String)
    (h : ∀ p ∈ l, p.1 ≠ k) : (l ++ [(k, v)]).lookup k = some v := by
  induction l with
  | nil => simp [List.lookup]
  | cons p ps ih =>
    have hk : (k == p.1) = false := beq_eq_false_iff_ne.mpr fun e => (h p (by simp)) e.symm
    simp only [List.cons_append, List.lookup, hk]
    exact ih fun q hq => h q (by simp [hq])

theorem spSet_lookup_self (l : List (String × String)) (k v : String) :
    (spSet l k v).lookup k = some v := by
  apply lookup_append_singleton
  intro p hp
  simpa using (List.mem_filter.mp hp).2

theorem spSet_mem_of_ne (l : List (String × String)) (k v k' v' : String)
    (hmem : (k', v') ∈ l) (hne : k' ≠ k) : (k', v') ∈ spSet l k v := by
  simp only [spSet, List.mem_append, List.mem_filter]
  exact Or.inl ⟨hmem, by simpa using hne⟩

theorem inserts_of_emits (chunks : List String) :
    (chunks.map Ev.emit).filterMap
      (fun e => match e with | Ev.dbInsert r => some r | _ => none) = [] := by
  induction chunks with
  | nil => rfl
  | cons c cs ih => simp [ih]

theorem emitted_of_emits (chunks : List String) :
    (chunks.map Ev.emit).filterMap
      (fun e => match e with | Ev.emit c => some c | _ => none) = chunks := by
  induction chunks with
  | nil => rfl
  | cons c cs ih => simp [ih]

theorem getLast?_some_of_ne_nil {α : Type} (l : List α) (h : l ≠ []) :
    ∃ a, l.getLast? = some a :=
  ⟨l.getLast h, List.getLast?_eq_getLast l h⟩

/-- C1: for an authenticated user whose owned-thread set is empty, the
sync proxy forwards a request whose `where` parameter is the well-formed
always-false predicate `"thread_id" = -1`, matching no row with a valid
(positive, identity-generated) thread id; and for every authenticated
user the forwarded request always carries a `where` ownership filter,
never an unfiltered query. -/
theorem emptyOwned_filter_wellformed_matches_nothing
    (cf : Option EnvVars) (proc : EnvVars) (env : AuthEnv) (uid : String)
    (db : Db) (clientParams : List (String × String))
    (hEnv : getEnv cf proc = Except.ok env)
    (hEmpty : listOwnedThreadIds db uid = []) :
    (∃ ps, (serve cf proc (some uid) db clientParams).forwarded = some ps ∧
        ps.lookup "where" = some (renderWhere (WhereClause.eqVal "thread_id" (-1)))) ∧
    (∀ tid : Int, 0 < tid →
        evalWhere (ownershipClause (listOwnedThreadIds db uid)) tid = false) ∧
    (∀ (uid2 : String) (db2 : Db), ∃ ps w,
        (serve cf proc (some uid2) db2 clientParams).forwarded = some ps ∧
        ps.lookup "where" = some w) := by
  refine ⟨⟨spSet (spSet (prepareElectricUrl clientParams) "table" "chat_messages") "where"
      (renderWhere (ownershipClause (listOwnedThreadIds db uid))),
      by simp [serve, hEnv, Outcome.forwarded], ?_⟩, ?_, ?_⟩
  · rw [hEmpty]
    simpa [ownershipClause] using
      spSet_lookup_self (spSet (prepareElectricUrl clientParams) "table" "chat_messages")
        "where" (renderWhere (WhereClause.eqVal "thread_id" (-1)))
  · intro tid htid
    rw [hEmpty]
    simp only [ownershipClause, List.isEmpty_nil, if_true, evalWhere]
    exact beq_eq_false_iff_ne.mpr (by omega)
  · intro uid2 db2
    exact ⟨spSet (spSet (prepareElectricUrl clientParams) "table" "chat_messages") "where"
        (renderWhere (ownershipClause (listOwnedThreadIds db2 uid2))),
      renderWhere (ownershipClause (listOwnedThreadIds db2 uid2)),
      by simp [serve, hEnv, Outcome.forwarded],
      spSet_lookup_self _ _ _⟩

theorem emptyOwned_filter_witness :
    (∃ ps, (serve none procEnvW (some "bob") dbW [("offset", "-1")]).forwarded = some ps ∧
        ps.lookup "where" = some (renderWhere (WhereClause.eqVal "thread_id" (-1)))) ∧
    (∀ tid : Int, 0 < tid →
        evalWhere (ownershipClause (listOwnedThreadIds dbW "bob")) tid = false) ∧
    (∀ (uid2 : String) (db2 : Db), ∃ ps w,
        (serve none procEnvW (some uid2) db2 [("offset", "-1")]).forwarded = some ps ∧
        ps.lookup "where" = some w) :=
  emptyOwned_filter_wellformed_matches_nothing none procEnvW authEnvW "bob" dbW
    [("offset", "-1")] rfl (by decide)

/-- C2: an authenticated completion request whose referenced thread does
not exist or is not owned by the caller gets status 403 and no assistant
message is inserted. -/
theorem foreignThread_403_noInsert
    (cf : Option EnvVars) (proc : EnvVars) (env : AuthEnv) (uid : String)
    (tidv : Option JVal) (msgs : List Msg) (mdl : Option String) (db : Db)
    (apiKeyConfigured : Bool) (defaultModel : String) (st : StreamOutcome)
    (hEnv : getEnv cf proc = Except.ok env)
    (hTid : (jsToNumber tidv).falsy = false)
    (hMsgs : msgs ≠ [])
    (hNotOwned : ∀ t, lookupThread db (jsToNumber tidv) = some t → t.user_id ≠ uid) :
    (chatAi cf proc (some uid) ⟨tidv, some msgs, mdl⟩ db apiKeyConfigured defaultModel
        st).status = some 403 ∧
    (chatAi cf proc (some uid) ⟨tidv, some msgs, mdl⟩ db apiKeyConfigured defaultModel
        st).inserts = [] := by
  have hne : msgs.isEmpty = false := by
    cases msgs with
    | nil => cases hMsgs rfl
    | cons a as => rfl
  cases hL : lookupThread db (jsToNumber tidv) with
  | none =>
    constructor <;> simp [chatAi, hEnv, hTid, hne, hL, Outcome.inserts]
  | some t =>
    have hu : t.user_id ≠ uid := hNotOwned t hL
    constructor <;> simp [chatAi, hEnv, hTid, hne, hL, hu, Outcome.inserts]

theorem foreignThread_403_witness :
    (chatAi none procEnvW (some "mallory") ⟨some (JVal.num 5), some msgsW, none⟩ dbW
        false "m" (StreamOutcome.completed [])).status = some 403 ∧
    (chatAi none procEnvW (some "mallory") ⟨some (JVal.num 5), some msgsW, none⟩ dbW
        false "m" (StreamOutcome.completed [])).inserts = [] :=
  foreignThread_403_noInsert none procEnvW authEnvW "mallory" (some (JVal.num 5)) msgsW
    none dbW false "m" (StreamOutcome.completed []) rfl (by decide) (by decide)
    (by decide)

/-- C3: a request with no valid session to any ownership-gated endpoint
(the two sync-proxy endpoints and POST /api/chat/ai) gets status 401,
performs no database write, never contacts the replication endpoint,
and never calls the LLM. -/
theorem unauthenticated_401_noWrite_noUpstream
    (cf : Option EnvVars) (proc : EnvVars) (env : AuthEnv) (db db2 db3 : Db)
    (clientParams clientParams2 : List (String × String)) (body : AiBody)
    (apiKeyConfigured : Bool) (defaultModel : String) (st : StreamOutcome)
    (hEnv : getEnv cf proc = Except.ok env) :
    ((serve cf proc none db clientParams).status = some 401 ∧
      (serve cf proc none db clientParams).wroteDb = false ∧
      (serve cf proc none db clientParams).forwarded = none) ∧
    ((serveChatThreads cf proc none db2 clientParams2).status = some 401 ∧
      (serveChatThreads cf proc none db2 clientParams2).wroteDb = false ∧
      (serveChatThreads cf proc none db2 clientParams2).forwarded = none) ∧
    ((chatAi cf proc none body db3 apiKeyConfigured defaultModel st).status = some 401 ∧
      (chatAi cf proc none body db3 apiKeyConfigured defaultModel st).wroteDb = false ∧
      (chatAi cf proc none body db3 apiKeyConfigured defaultModel st).calledLLM = false) := by
  refine ⟨⟨?_, ?_, ?_⟩, ⟨?_, ?_, ?_⟩, ⟨?_, ?_, ?_⟩⟩ <;>
    simp [serve, serveChatThreads, chatAi, hEnv, Outcome.wroteDb, Outcome.forwarded,
      Outcome.calledLLM]

theorem unauthenticated_401_witness :
    ((serve none procEnvW none dbW []).status = some 401 ∧
      (serve none procEnvW none dbW []).wroteDb = false ∧
      (serve none procEnvW none dbW []).forwarded = none) ∧
    ((serveChatThreads none procEnvW none dbW []).status = some 401 ∧
      (serveChatThreads none procEnvW none dbW []).wroteDb = false ∧
      (serveChatThreads none procEnvW none dbW []).forwarded = none) ∧
    ((chatAi none procEnvW none ⟨none, none, none⟩ dbW false "m"
        (StreamOutcome.completed [])).status = some 401 ∧
      (chatAi none procEnvW none ⟨none, none, none⟩ dbW false "m"
        (StreamOutcome.completed [])).wroteDb = false ∧
      (chatAi none procEnvW none ⟨none, none, none⟩ dbW false "m"
        (StreamOutcome.completed [])).calledLLM = false) :=
  unauthenticated_401_noWrite_noUpstream none procEnvW authEnvW dbW dbW dbW [] []
    ⟨none, none, none⟩ false "m" (StreamOutcome.completed []) rfl

/-- C4: in real mode (credential configured), when the upstream stream
yields `chunks` and completes, the handler's trace is exactly the
emitted chunks followed by a single insert whose content is the
concatenation of all chunks — persistence happens once, after the
stream's natural end, never mid-stream; and when the stream throws
after partial delivery, nothing is inserted. -/
theorem realMode_persistOnce_afterStream
    (cf : Option EnvVars) (proc : EnvVars) (env : AuthEnv) (uid : String)
    (tidv : Option JVal) (n : Int) (msgs : List Msg) (mdl : Option String)
    (db : Db) (t : Thread) (defaultModel : String) (chunks sent : List String)
    (hEnv : getEnv cf proc = Except.ok env)
    (hN : jsToNumber tidv = NumVal.int n)
    (hNz : n ≠ 0)
    (hMsgs : msgs ≠ [])
    (hT : lookupThread db (NumVal.int n) = some t)
    (hOwn : t.user_id = uid) :
    ((chatAi cf proc (some uid) ⟨tidv, some msgs, mdl⟩ db true defaultModel
        (StreamOutcome.completed chunks)).trace =
      [Ev.sessionCheck, Ev.dbQuery, Ev.llmCall (jsOr mdl defaultModel)] ++
        chunks.map Ev.emit ++
        [Ev.dbInsert ⟨n, "assistant", String.join chunks⟩]) ∧
    ((chatAi cf proc (some uid) ⟨tidv, some msgs, mdl⟩ db true defaultModel
        (StreamOutcome.completed chunks)).inserts =
      [⟨n, "assistant", String.join chunks⟩]) ∧
    ((chatAi cf proc (some uid) ⟨tidv, some msgs, mdl⟩ db true defaultModel
        (StreamOutcome.failed sent)).inserts = []) := by
  have hne : msgs.isEmpty = false := by
    cases msgs with
    | nil => cases hMsgs rfl
    | cons a as => rfl
  have hfalsy : (NumVal.int n).falsy = false := by
    simpa [NumVal.falsy] using hNz
  refine ⟨?_, ?_, ?_⟩ <;>
    simp [chatAi, hEnv, hfalsy, hne, hN, hT, hOwn, Outcome.inserts,
      List.filterMap_append, inserts_of_emits]

theorem realMode_persistOnce_witness :
    ((chatAi none procEnvW (some "alice") ⟨some (JVal.num 5), some msgsW, none⟩ dbW true
        "m" (StreamOutcome.completed ["Hi", " there"])).trace =
      [Ev.sessionCheck, Ev.dbQuery, Ev.llmCall (jsOr none "m")] ++
        (["Hi", " there"] : List String).map Ev.emit ++
        [Ev.dbInsert ⟨5, "assistant", String.join ["Hi", " there"]⟩]) ∧
    ((chatAi none procEnvW (some "alice") ⟨some (JVal.num 5), some msgsW, none⟩ dbW true
        "m" (StreamOutcome.completed ["Hi", " there"])).inserts =
      [⟨5, "assistant", String.join ["Hi", " there"]⟩]) ∧
    ((chatAi none procEnvW (some "alice") ⟨some (JVal.num 5), some msgsW, none⟩ dbW true
        "m" (StreamOutcome.failed ["Hi"])).inserts = []) :=
  realMode_persistOnce_afterStream none procEnvW authEnvW "alice" (some (JVal.num 5)) 5
    msgsW none dbW ⟨5, "general", "alice"⟩ "m" ["Hi", " there"] ["Hi"] rfl (by decide)
    (by decide) (by decide) (by decide) (by decide)

/-- C5: in demo mode (no LLM credential), an authorized completion
request makes no LLM call, inserts exactly one assistant message whose
content is the canned reply embedding the literal content of the last
user-role message, and streams exactly one chunk. -/
theorem demoMode_persistEcho_singleChunk
    (cf : Option EnvVars) (proc : EnvVars) (env : AuthEnv) (uid : String)
    (tidv : Option JVal) (n : Int) (msgs : List Msg) (mdl : Option String)
    (db : Db) (t : Thread) (defaultModel : String) (st : StreamOutcome)
    (hEnv : getEnv cf proc = Except.ok env)
    (hN : jsToNumber tidv = NumVal.int n)
    (hNz : n ≠ 0)
    (hMsgs : msgs ≠ [])
    (hT : lookupThread db (NumVal.int n) = some t)
    (hOwn : t.user_id = uid)
    (hUser : msgs.filter (fun m => m.role == "user") ≠ []) :
    ∃ m, (msgs.filter (fun m => m.role == "user")).getLast? = some m ∧
      (chatAi cf proc (some uid) ⟨tidv, some msgs, mdl⟩ db false defaultModel st).inserts =
        [⟨n, "assistant",
          "Demo reply: I received \"" ++ m.content ++
            "\". Configure OPENROUTER_API_KEY for real responses."⟩] ∧
      (chatAi cf proc (some uid) ⟨tidv, some msgs, mdl⟩ db false defaultModel st).emitted =
        [demoChunk (demoReply (some m))] ∧
      (chatAi cf proc (some uid) ⟨tidv, some msgs, mdl⟩ db false defaultModel
          st).calledLLM = false ∧
      (chatAi cf proc (some uid) ⟨tidv, some msgs, mdl⟩ db false defaultModel st).status =
        some 200 := by
  have hne : msgs.isEmpty = false := by
    cases msgs with
    | nil => cases hMsgs rfl
    | cons a as => rfl
  have hfalsy : (NumVal.int n).falsy = false := by
    simpa [NumVal.falsy] using hNz
  obtain ⟨m, hm⟩ := getLast?_some_of_ne_nil _ hUser
  refine ⟨m, hm, ?_, ?_, ?_, ?_⟩ <;>
    simp [chatAi, hEnv, hfalsy, hne, hN, hT, hOwn, hm, Outcome.inserts, Outcome.emitted,
      Outcome.calledLLM, demoReply]

theorem demoMode_persistEcho_witness :
    ∃ m, (msgsW.filter (fun m => m.role == "user")).getLast? = some m ∧
      (chatAi none procEnvW (some "alice") ⟨some (JVal.num 5), some msgsW, none⟩ dbW false
          "m" (StreamOutcome.completed [])).inserts =
        [⟨5, "assistant",
          "Demo reply: I received \"" ++ m.content ++
            "\". Configure OPENROUTER_API_KEY for real responses."⟩] ∧
      (chatAi none procEnvW (some "alice") ⟨some (JVal.num 5), some msgsW, none⟩ dbW false
          "m" (StreamOutcome.completed [])).emitted =
        [demoChunk (demoReply (some m))] ∧
      (chatAi none procEnvW (some "alice") ⟨some (JVal.num 5), some msgsW, none⟩ dbW false
          "m" (StreamOutcome.completed [])).calledLLM = false ∧
      (chatAi none procEnvW (some "alice") ⟨some (JVal.num 5), some msgsW, none⟩ dbW false
          "m" (StreamOutcome.completed [])).status = some 200 :=
  demoMode_persistEcho_singleChunk none procEnvW authEnvW "alice" (some (JVal.num 5)) 5
    msgsW none dbW ⟨5, "general", "alice"⟩ "m" (StreamOutcome.completed []) rfl
    (by decide) (by decide) (by decide) (by decide) (by decide) (by decide)

theorem spSet_lookup_ne (l : List (String × String)) (k v k' : String) (h : k' ≠ k) :
    (spSet l k v).lookup k' = l.lookup k' := by
  induction l with
  | nil =>
    have hb : (k' == k) = false := beq_eq_false_iff_ne.mpr h
    simp [spSet, List.lookup, hb]
  | cons p ps ih =>
    by_cases hp : p.1 = k
    · have hk : (k' == p.1) = false := beq_eq_false_iff_ne.mpr (by rw [hp]; exact h)
      have hs : spSet (p :: ps) k v = spSet ps k v := by
        simp [spSet, List.filter_cons, hp]
      rw [hs, ih]
      simp [List.lookup, hk]
    · have hs : spSet (p :: ps) k v = p :: spSet ps k v := by
        simp [spSet, List.filter_cons, hp]
      rw [hs]
      by_cases hk : k' = p.1
      · have hb : (k' == p.1) = true := beq_iff_eq.mpr hk
        simp [List.lookup, hb]
      · have hb : (k' == p.1) = false := beq_eq_false_iff_ne.mpr hk
        simp [List.lookup, hb, ih]

/-- C6 counterexample: the ownership filter is not attached alongside a
client-supplied `where` parameter; `URLSearchParams.set("where", ...)`
replaces it, so the client pair `("where", "1=1")` is absent from the
request the proxy forwards. -/
theorem clientWhere_not_preserved_cex :
    ¬ (("where", "1=1") ∈
      ((serve none procEnvW (some "alice") dbW [("where", "1=1")]).forwarded.getD [])) := by
  decide

/-- C6 amended: for every authenticated sync-proxy request, client
query parameters under keys other than `where` and `table` are
preserved in the forwarded request, the `table` parameter is forced to
`chat_messages`, and the `where` parameter carries exactly the
ownership filter (a client-supplied `where` or `table` parameter is
overwritten, not kept alongside). -/
theorem syncProxy_params_preserved_filter_replaces
    (cf : Option EnvVars) (proc : EnvVars) (env : AuthEnv) (uid : String)
    (db : Db) (clientParams : List (String × String))
    (hEnv : getEnv cf proc = Except.ok env) :
    ∃ fps, (serve cf proc (some uid) db clientParams).forwarded = some fps ∧
      (∀ k v, (k, v) ∈ clientParams → k ≠ "where" → k ≠ "table" → (k, v) ∈ fps) ∧
      fps.lookup "table" = some "chat_messages" ∧
      fps.lookup "where" = some (renderWhere (ownershipClause (listOwnedThreadIds db uid))) ∧
      (∀ v, ("where", v) ∈ fps →
        v = renderWhere (ownershipClause (listOwnedThreadIds db uid))) := by
  refine ⟨spSet (spSet (prepareElectricUrl clientParams) "table" "chat_messages") "where"
      (renderWhere (ownershipClause (listOwnedThreadIds db uid))),
    by simp [serve, hEnv, Outcome.forwarded], ?_, ?_, spSet_lookup_self _ _ _, ?_⟩
  · intro k v hmem hkw hkt
    exact spSet_mem_of_ne _ _ _ _ _
      (spSet_mem_of_ne _ _ _ _ _ hmem hkt) hkw
  · rw [spSet_lookup_ne _ _ _ _ (by decide)]
    exact spSet_lookup_self _ _ _
  · intro v hv
    simp only [spSet, List.mem_append, List.mem_filter] at hv
    rcases hv with ⟨_, habs⟩ | hv
    · simp at habs
    · simpa using hv

theorem syncProxy_params_preserved_witness :
    ∃ fps, (serve none procEnvW (some "alice") dbW
        [("offset", "-1"), ("where", "1=1")]).forwarded = some fps ∧
      (∀ k v, (k, v) ∈ [("offset", "-1"), ("where", "1=1")] →
        k ≠ "where" → k ≠ "table" → (k, v) ∈ fps) ∧
      fps.lookup "table" = some "chat_messages" ∧
      fps.lookup "where" =
        some (renderWhere (ownershipClause (listOwnedThreadIds dbW "alice"))) ∧
      (∀ v, ("where", v) ∈ fps →
        v = renderWhere (ownershipClause (listOwnedThreadIds dbW "alice"))) :=
  syncProxy_params_preserved_filter_replaces none procEnvW authEnvW "alice" dbW
    [("offset", "-1"), ("where", "1=1")] rfl

/-- C7: a POST /api/chat/guest request gets status 400 exactly when its
messages list is empty or absent (an unparseable body parses to `{}`,
hence absent messages); the handler never checks the session and never
persists a message. -/
theorem guest_400_iff_noMessages (body : GuestBody) (apiKeyConfigured : Bool)
    (defaultModel : String) (st : StreamOutcome) :
    ((guest body apiKeyConfigured defaultModel st).status = some 400 ↔
      body.messages.getD [] = []) ∧
    (guest body apiKeyConfigured defaultModel st).checkedSession = false ∧
    (guest body apiKeyConfigured defaultModel st).inserts = [] := by
  have hcases : body.messages.getD [] = [] ∨ (body.messages.getD []).isEmpty = false := by
    cases h : body.messages.getD [] with
    | nil => exact Or.inl rfl
    | cons a as => exact Or.inr rfl
  rcases hcases with h | h
  · have he : (body.messages.getD []).isEmpty = true := by simp [h]
    refine ⟨?_, ?_, ?_⟩ <;>
      simp [guest, h, he, Outcome.checkedSession, Outcome.inserts]
  · have hne : ¬ body.messages.getD [] = [] := by
      intro hc
      rw [hc] at h
      cases h
    cases hk : apiKeyConfigured <;> cases st <;>
      refine ⟨?_, ?_, ?_⟩ <;>
      simp [guest, h, hne, Outcome.checkedSession, Outcome.inserts,
        List.filterMap_append, inserts_of_emits, List.any_append]

/-- C8 counterexample: with both required secrets absent from both the
platform context and the process environment, configuration resolution
fails, yet the process still serves requests: POST /api/chat/guest
never consults the configuration and answers 200 — so "the process
cannot serve requests" is false, and the failure is not a startup
fail-fast but a lazy per-request error. -/
theorem missingSecret_guestServes_cex :
    getEnv none ⟨none, none, none, none, none⟩ =
      Except.error "DATABASE_URL is not configured" ∧
    (guest ⟨some msgsW, none⟩ false "defaultModel"
      (StreamOutcome.completed [])).status = some 200 :=
  ⟨rfl, rfl⟩

/-- C8 amended: when a required secret (the database connection string
or the auth signing secret) is absent from both the platform context
and the process environment, configuration resolution throws a
configuration error, which surfaces lazily on each request to the
session-gated handlers (the two sync proxies and POST /api/chat/ai):
those requests die in the error with no response, no effect and no
upstream contact.  The process itself starts, and the
configuration-free guest endpoint still serves every request. -/
theorem missingSecret_configError_gatedOnly (cf : Option EnvVars) (proc : EnvVars)
    (h : (cf.bind (fun e => e.DATABASE_URL) = none ∧ proc.DATABASE_URL = none) ∨
      (cf.bind (fun e => e.BETTER_AUTH_SECRET) = none ∧ proc.BETTER_AUTH_SECRET = none)) :
    (∃ msg, getEnv cf proc = Except.error msg) ∧
    (∀ session db clientParams,
      serve cf proc session db clientParams = ⟨none, []⟩) ∧
    (∀ session db clientParams,
      serveChatThreads cf proc session db clientParams = ⟨none, []⟩) ∧
    (∀ session body db apiKeyConfigured defaultModel st,
      chatAi cf proc session body db apiKeyConfigured defaultModel st = ⟨none, []⟩) ∧
    (∀ (body : GuestBody) (apiKeyConfigured : Bool) (defaultModel : String)
        (st : StreamOutcome),
      ∃ s, (guest body apiKeyConfigured defaultModel st).status = some s) := by
  have herr : ∃ msg, getEnv cf proc = Except.error msg := by
    rcases h with ⟨hcf, hproc⟩ | ⟨hcf, hproc⟩
    · have hpick : pickEnv cf proc (fun e => e.DATABASE_URL) = none := by
        simp [pickEnv, hcf, hproc]
      exact ⟨"DATABASE_URL is not configured", by simp [getEnv, hpick]⟩
    · have hpick : pickEnv cf proc (fun e => e.BETTER_AUTH_SECRET) = none := by
        simp [pickEnv, hcf, hproc]
      cases hdb : pickEnv cf proc (fun e => e.DATABASE_URL) with
      | none => exact ⟨"DATABASE_URL is not configured", by simp [getEnv, hdb]⟩
      | some v =>
        exact ⟨"BETTER_AUTH_SECRET is not configured", by simp [getEnv, hdb, hpick]⟩
  obtain ⟨msg, hmsg⟩ := herr
  refine ⟨⟨msg, hmsg⟩, ?_, ?_, ?_, ?_⟩
  · intro session db clientParams
    simp [serve, hmsg]
  · intro session db clientParams
    simp [serveChatThreads, hmsg]
  · intro session body db apiKeyConfigured defaultModel st
    simp [chatAi, hmsg]
  · intro body apiKeyConfigured defaultModel st
    by_cases hm : (body.messages.getD []).isEmpty = true
    · exact ⟨400, by simp [guest, hm]⟩
    · cases apiKeyConfigured with
      | false => exact ⟨200, by simp [guest, hm]⟩
      | true => cases st <;> exact ⟨200, by simp [guest, hm]⟩

theorem missingSecret_gatedOnly_witness :
    (∃ msg, getEnv none ⟨some "postgres://db", none, none, none, none⟩ =
      Except.error msg) ∧
    (∀ session db clientParams,
      serve none ⟨some "postgres://db", none, none, none, none⟩ session db clientParams =
        ⟨none, []⟩) ∧
    (∀ session db clientParams,
      serveChatThreads none ⟨some "postgres://db", none, none, none, none⟩ session db
        clientParams = ⟨none, []⟩) ∧
    (∀ session body db apiKeyConfigured defaultModel st,
      chatAi none ⟨some "postgres://db", none, none, none, none⟩ session body db
        apiKeyConfigured defaultModel st = ⟨none, []⟩) ∧
    (∀ (body : GuestBody) (apiKeyConfigured : Bool) (defaultModel : String)
        (st : StreamOutcome),
      ∃ s, (guest body apiKeyConfigured defaultModel st).status = some s) :=
  missingSecret_configError_gatedOnly none ⟨some "postgres://db", none, none, none, none⟩
    (Or.inr ⟨rfl, rfl⟩)

/-- C9: in the guest chat view, once the locally stored free-request
counter has reached `FREE_REQUEST_LIMIT` (1), a submit never issues a
completion call to /api/chat/guest, and every submit that passes the
input guard (non-empty trimmed input, not already sending) shows the
auth prompt; moreover the counter never decreases across submits, so
the blocked state persists for every subsequent submit. -/
theorem guestLimit_blocks_submit :
    (∀ (s : GuestState) (now : Int) (res : FetchRes),
      FREE_REQUEST_LIMIT ≤ s.freeRequestsUsed →
        (handleSend s now res).2 = false ∧
        (¬ (jsTrim s.input = "" ∨ s.isLoading) →
          (handleSend s now res).1.showAuthPrompt = true)) ∧
    (∀ (s : GuestState) (now : Int) (res : FetchRes),
      s.freeRequestsUsed ≤ (handleSend s now res).1.freeRequestsUsed) := by
  constructor
  · intro s now res h
    by_cases hg : jsTrim s.input = "" ∨ s.isLoading
    · refine ⟨by simp [handleSend, hg], fun hc => absurd hg hc⟩
    · refine ⟨?_, fun _ => ?_⟩ <;> simp [handleSend, hg, h]
  · intro s now res
    by_cases hg : jsTrim s.input = "" ∨ s.isLoading
    · simp [handleSend, hg]
    · by_cases h : FREE_REQUEST_LIMIT ≤ s.freeRequestsUsed
      · simp [handleSend, hg, h]
      · cases res <;> simp [handleSend, hg, h]

theorem guestLimit_blocks_witness :
    (handleSend ⟨"hello", false, "", [], 1, false⟩ 100 (FetchRes.ok ["a"])).2 = false ∧
    (handleSend ⟨"hello", false, "", [], 1, false⟩ 100
      (FetchRes.ok ["a"])).1.showAuthPrompt = true := by
  have h := guestLimit_blocks_submit.1 ⟨"hello", false, "", [], 1, false⟩ 100
    (FetchRes.ok ["a"]) (by decide)
  exact ⟨h.1, h.2 (by decide)⟩

/-- C10: an authenticated completion request whose `threadId` field
coerces to a falsy number gets status 400; the absent field, the number
0, and a non-numeric string (which coerces to NaN) are all falsy, even
when the field is syntactically present in the body. -/
theorem falsyThreadId_yields_400 :
    (∀ (cf : Option EnvVars) (proc : EnvVars) (env : AuthEnv) (uid : String)
        (body : AiBody) (db : Db) (apiKeyConfigured : Bool) (defaultModel : String)
        (st : StreamOutcome),
      getEnv cf proc = Except.ok env →
      (jsToNumber body.threadId).falsy = true →
      (chatAi cf proc (some uid) body db apiKeyConfigured defaultModel st).status =
        some 400) ∧
    (jsToNumber none).falsy = true ∧
    (jsToNumber (some (JVal.num 0))).falsy = true ∧
    (∀ s : String, jsTrim s ≠ "" → parseDec (jsTrim s) = NumVal.nan →
      (jsToNumber (some (JVal.str s))).falsy = true) := by
  refine ⟨?_, rfl, rfl, ?_⟩
  · intro cf proc env uid body db apiKeyConfigured defaultModel st hEnv hfalsy
    simp [chatAi, hEnv, hfalsy]
  · intro s hs hparse
    simp [jsToNumber, hs, hparse, NumVal.falsy]

theorem falsyThreadId_witness :
    (chatAi none procEnvW (some "alice") ⟨some (JVal.str "abc"), some msgsW, none⟩ dbW
      false "m" (StreamOutcome.completed [])).status = some 400 :=
  falsyThreadId_yields_400.1 none procEnvW authEnvW "alice"
    ⟨some (JVal.str "abc"), some msgsW, none⟩ dbW false "m" (StreamOutcome.completed [])
    rfl (by decide)
